import Mathlib

/-!
Verification of the authenticated-connection handshake
(`pkg/net/libp2p`, functions `newAuthenticatedInboundConnection`,
`newAuthenticatedOutboundConnection`, `runHandshakeAsInitiator`,
`runHandshakeAsResponder`, the act send/receive helpers and `verify`)
against its natural-language specification.

The wrapper code is embedded shallowly: every Go function becomes a Lean
function of the same name, state mutation becomes explicit state passing,
and every fallible step returns `Except`.  External collaborators that the
spec declares out of scope (the byte transport, the length-delimited codec,
the peer-identity cryptosystem and the key-agreement sub-protocol) are
modelled from the spec's contracts as parameters: records of functions the
handshake calls.  Writes to the transport and the closing of the transport
are recorded in an explicit event trace so that the spec's side-effect
obligations can be stated.
-/

/-- Byte strings: Go `[]byte` values are modelled as lists of bytes. -/
abbrev Bytes := List Nat

/-- Peer identities (`peer.ID` in the source) are opaque byte strings;
equality is byte equality. -/
abbrev PeerID := Bytes

/-- The wire record `pb.HandshakeEnvelope` with its three fields
`Message`, `PeerID` and `Signature`. -/
structure HandshakeEnvelope where
  Message : Bytes
  PeerID : Bytes
  Signature : Bytes
deriving DecidableEq, Repr

/-- Error kinds a handshake run can surface.  The Go code returns wrapped
`error` values; what matters to the spec is that the kinds listed in its
error taxonomy stay distinguishable, so each failure site gets its own
constructor.  `identityMismatch` is the error built by `verify` when the
pinned identity differs from the envelope sender. -/
inductive HandshakeError where
  | readError
  | frameOversize
  | writeError
  | signError
  | signatureInvalid
  | identityMismatch
  | marshalError
  | unmarshalError
  | subprotocolError
  | extractKeyError
deriving DecidableEq, Repr

/-- Observable actions on the underlying transport: writing one envelope
frame, and closing the transport (`ac.Close()`). -/
inductive TransportEvent where
  | write (env : HandshakeEnvelope)
  | close
deriving DecidableEq, Repr

/-- Modelled from the spec: the peer-identity cryptosystem and signature
adapter (`libp2pcrypto.PrivKey.Sign`, the libp2p package's
`verifyEnvelope`, `peer.ID.ExtractPublicKey`) are external to the files
under verification; the spec gives their contracts in section 4.B.
`sign` is signing with the connection's local private key (may fail with a
crypto error); `verifyEnvelope` decides whether a signature over the
message bytes is valid for the sender identity; `extractPublicKey`
extracts a public key from an identity when the identity is well formed. -/
structure Externals where
  sign : Bytes → Option Bytes
  verifyEnvelope : PeerID → Bytes → Bytes → Bool
  extractPublicKey : PeerID → Option Bytes

/-- Modelled from the spec: the key-agreement sub-protocol
(`pkg/net/security/handshake`) is a black box whose act payloads are
opaque; the core only moves them through envelopes.  Sub-protocol states
and messages are modelled as opaque tokens (`Nat`).  Each field is one
call the initiator track makes: `initiate` is `handshake.InitiateHandshake`,
`act1Marshal` is `initiatorAct1.Message().Marshal()`, `act1Next` is
`initiatorAct1.Next()` (infallible in the source), `act2Unmarshal` is
`Act2Message.Unmarshal`, `act2Next` is `initiatorAct2.Next(act2Message)`,
and `act3Marshal` is `initiatorAct3.Message().Marshal()`. -/
structure InitiatorSub where
  initiate : Option Nat
  act1Marshal : Nat → Option Bytes
  act1Next : Nat → Nat
  act2Unmarshal : Bytes → Option Nat
  act2Next : Nat → Nat → Option Nat
  act3Marshal : Nat → Option Bytes

/-- Modelled from the spec: the responder-track calls into the
key-agreement sub-protocol.  `act1Unmarshal` is `Act1Message.Unmarshal`,
`answerHandshake` is `handshake.AnswerHandshake`, `act2Marshal` is
`responderAct2.Message().Marshal()`, `act2Next` is `responderAct2.Next()`
(infallible), `act3Unmarshal` is `Act3Message.Unmarshal` and `finalize` is
`responderAct3.FinalizeHandshake`. -/
structure ResponderSub where
  act1Unmarshal : Bytes → Option Nat
  answerHandshake : Nat → Option Nat
  act2Marshal : Nat → Option Bytes
  act2Next : Nat → Nat
  act3Unmarshal : Bytes → Option Nat
  finalize : Nat → Nat → Option Unit

/-- One inbound frame offered by the transport to the delimited reader:
either an I/O failure, or a frame whose total encoded length is
`encodedLength` and whose decoded content is `env`. -/
inductive Frame where
  | ioError
  | frame (encodedLength : Nat) (env : HandshakeEnvelope)
deriving DecidableEq, Repr

/-- The transport as the handshake observes it: the queue of inbound
frames the delimited reader will yield, and the queue of outcomes of
successive `WriteMsg` calls. -/
structure Wire where
  incoming : List Frame
  writeOks : List Bool
deriving DecidableEq, Repr

/-- Enough space for a proto-encoded envelope with a message, peer.ID, and
sig (`const maxFrameSize = 1024`). -/
def maxFrameSize : Nat := 1024

/-- Modelled from the spec: the length-delimited codec
(`protoio.NewDelimitedReader(ac.Conn, maxFrameSize)`) is an external
collaborator; per the spec it reads exactly one length-prefixed frame and
rejects any frame whose total encoded length exceeds the maximum frame
size. -/
def readMsg (w : Wire) : Except HandshakeError HandshakeEnvelope × Wire :=
  match w.incoming with
  | [] => (Except.error HandshakeError.readError, w)
  | Frame.ioError :: rest =>
      (Except.error HandshakeError.readError, { w with incoming := rest })
  | Frame.frame len env :: rest =>
      if len > maxFrameSize then
        (Except.error HandshakeError.frameOversize, { w with incoming := rest })
      else
        (Except.ok env, { w with incoming := rest })

/-- Modelled from the spec: `protoio.NewDelimitedWriter(ac.Conn).WriteMsg`
serializes and flushes one frame; it may fail with a transport I/O error.
A write attempt is recorded in the event trace whether or not it
succeeds. -/
def writeMsg (env : HandshakeEnvelope) (w : Wire) :
    Except HandshakeError Unit × Wire × List TransportEvent :=
  match w.writeOks with
  | [] => (Except.error HandshakeError.writeError, w, [TransportEvent.write env])
  | ok :: rest =>
      if ok then
        (Except.ok (), { w with writeOks := rest }, [TransportEvent.write env])
      else
        (Except.error HandshakeError.writeError, { w with writeOks := rest },
          [TransportEvent.write env])

/-- The `authenticatedConnection` struct: the local identity, the pinned
remote identity (`peer.ID` zero value, the empty byte string, before it is
set) and the extracted remote public key when one is held.  The local
private key is represented by the `sign` field of the `Externals` the run
is given. -/
structure authenticatedConnection where
  localPeerID : PeerID
  remotePeerID : PeerID
  remotePeerPublicKey : Option Bytes
deriving DecidableEq, Repr

/-- The source's `verify`: checks that the pinned identity matches the
envelope sender before running the signature verification check; an
identity mismatch is its own error, distinct from a bad signature. -/
def verify (ext : Externals) (pinned sender : PeerID)
    (messageBytes signatureBytes : Bytes) : Except HandshakeError Unit :=
  if pinned ≠ sender then
    Except.error HandshakeError.identityMismatch
  else if ext.verifyEnvelope sender messageBytes signatureBytes then
    Except.ok ()
  else
    Except.error HandshakeError.signatureInvalid

/-- The source's `initiatorSendAct1`: sign the marshalled Act 1 message
with the local private key, build the envelope carrying the local peer id,
and write it. -/
def initiatorSendAct1 (ext : Externals) (ac : authenticatedConnection)
    (act1WireMessage : Bytes) (w : Wire) :
    Except HandshakeError Unit × Wire × List TransportEvent :=
  match ext.sign act1WireMessage with
  | none => (Except.error HandshakeError.signError, w, [])
  | some signedAct1Message =>
      writeMsg
        { Message := act1WireMessage
          PeerID := ac.localPeerID
          Signature := signedAct1Message } w

/-- The source's `initiatorSendAct3`: sign the marshalled Act 3 message,
build the envelope carrying the local peer id, and write it. -/
def initiatorSendAct3 (ext : Externals) (ac : authenticatedConnection)
    (act3WireMessage : Bytes) (w : Wire) :
    Except HandshakeError Unit × Wire × List TransportEvent :=
  match ext.sign act3WireMessage with
  | none => (Except.error HandshakeError.signError, w, [])
  | some signedAct3Message =>
      writeMsg
        { Message := act3WireMessage
          PeerID := ac.localPeerID
          Signature := signedAct3Message } w

/-- The source's `initiatorReceiveAct2`: read one envelope, `verify` it
against the expected remote peer id, then unmarshal the Act 2 message. -/
def initiatorReceiveAct2 (ext : Externals) (sub : InitiatorSub)
    (ac : authenticatedConnection) (w : Wire) :
    Except HandshakeError Nat × Wire :=
  match readMsg w with
  | (Except.error e, w') => (Except.error e, w')
  | (Except.ok act2Envelope, w') =>
      match verify ext ac.remotePeerID act2Envelope.PeerID
          act2Envelope.Message act2Envelope.Signature with
      | Except.error e => (Except.error e, w')
      | Except.ok () =>
          match sub.act2Unmarshal act2Envelope.Message with
          | none => (Except.error HandshakeError.unmarshalError, w')
          | some act2Message => (Except.ok act2Message, w')

/-- The source's `responderReceiveAct1`: read one envelope, adopt the
envelope's peer id as the pinned remote identity, `verify` the envelope
against that just-adopted identity, then unmarshal the Act 1 message.
The (possibly updated) connection state is returned alongside the result,
mirroring the mutation of `ac.remotePeerID`. -/
def responderReceiveAct1 (ext : Externals) (sub : ResponderSub)
    (ac : authenticatedConnection) (w : Wire) :
    Except HandshakeError Nat × authenticatedConnection × Wire :=
  match readMsg w with
  | (Except.error e, w') => (Except.error e, ac, w')
  | (Except.ok act1Envelope, w') =>
      let ac' := { ac with remotePeerID := act1Envelope.PeerID }
      match verify ext ac'.remotePeerID act1Envelope.PeerID
          act1Envelope.Message act1Envelope.Signature with
      | Except.error e => (Except.error e, ac', w')
      | Except.ok () =>
          match sub.act1Unmarshal act1Envelope.Message with
          | none => (Except.error HandshakeError.unmarshalError, ac', w')
          | some act1Message => (Except.ok act1Message, ac', w')

/-- The source's `responderSendAct2`: sign the marshalled Act 2 message,
build the envelope carrying the local peer id, and write it. -/
def responderSendAct2 (ext : Externals) (ac : authenticatedConnection)
    (act2WireMessage : Bytes) (w : Wire) :
    Except HandshakeError Unit × Wire × List TransportEvent :=
  match ext.sign act2WireMessage with
  | none => (Except.error HandshakeError.signError, w, [])
  | some signedAct2Message =>
      writeMsg
        { Message := act2WireMessage
          PeerID := ac.localPeerID
          Signature := signedAct2Message } w

/-- The source's `responderReceiveAct3`: read one envelope, `verify` it
against the pinned remote identity, then unmarshal the Act 3 message. -/
def responderReceiveAct3 (ext : Externals) (sub : ResponderSub)
    (ac : authenticatedConnection) (w : Wire) :
    Except HandshakeError Nat × Wire :=
  match readMsg w with
  | (Except.error e, w') => (Except.error e, w')
  | (Except.ok act3Envelope, w') =>
      match verify ext ac.remotePeerID act3Envelope.PeerID
          act3Envelope.Message act3Envelope.Signature with
      | Except.error e => (Except.error e, w')
      | Except.ok () =>
          match sub.act3Unmarshal act3Envelope.Message with
          | none => (Except.error HandshakeError.unmarshalError, w')
          | some act3Message => (Except.ok act3Message, w')

/-- The source's `runHandshakeAsInitiator`: Act 1 (initiate, marshal,
send), Act 2 (receive, advance the sub-protocol), Act 3 (marshal, send).
Returns the result, the final wire state, and the transport events in
order. -/
def runHandshakeAsInitiator (ext : Externals) (sub : InitiatorSub)
    (ac : authenticatedConnection) (w : Wire) :
    Except HandshakeError Unit × Wire × List TransportEvent :=
  match sub.initiate with
  | none => (Except.error HandshakeError.subprotocolError, w, [])
  | some initiatorAct1 =>
      match sub.act1Marshal initiatorAct1 with
      | none => (Except.error HandshakeError.marshalError, w, [])
      | some act1WireMessage =>
          match initiatorSendAct1 ext ac act1WireMessage w with
          | (Except.error e, w1, t1) => (Except.error e, w1, t1)
          | (Except.ok (), w1, t1) =>
              let initiatorAct2 := sub.act1Next initiatorAct1
              match initiatorReceiveAct2 ext sub ac w1 with
              | (Except.error e, w2) => (Except.error e, w2, t1)
              | (Except.ok act2Message, w2) =>
                  match sub.act2Next initiatorAct2 act2Message with
                  | none => (Except.error HandshakeError.subprotocolError, w2, t1)
                  | some initiatorAct3 =>
                      match sub.act3Marshal initiatorAct3 with
                      | none => (Except.error HandshakeError.marshalError, w2, t1)
                      | some act3WireMessage =>
                          match initiatorSendAct3 ext ac act3WireMessage w2 with
                          | (Except.error e, w3, t3) => (Except.error e, w3, t1 ++ t3)
                          | (Except.ok (), w3, t3) => (Except.ok (), w3, t1 ++ t3)

/-- The source's `runHandshakeAsResponder`: Act 1 (receive, answer),
Act 2 (marshal, send), Act 3 (receive, finalize).  Returns the result, the
connection state after the run (carrying the pinned identity), the final
wire state, and the transport events in order. -/
def runHandshakeAsResponder (ext : Externals) (sub : ResponderSub)
    (ac : authenticatedConnection) (w : Wire) :
    Except HandshakeError Unit × authenticatedConnection × Wire ×
      List TransportEvent :=
  match responderReceiveAct1 ext sub ac w with
  | (Except.error e, ac1, w1) => (Except.error e, ac1, w1, [])
  | (Except.ok act1Message, ac1, w1) =>
      match sub.answerHandshake act1Message with
      | none => (Except.error HandshakeError.subprotocolError, ac1, w1, [])
      | some responderAct2 =>
          match sub.act2Marshal responderAct2 with
          | none => (Except.error HandshakeError.marshalError, ac1, w1, [])
          | some act2WireMessage =>
              match responderSendAct2 ext ac1 act2WireMessage w1 with
              | (Except.error e, w2, t2) => (Except.error e, ac1, w2, t2)
              | (Except.ok (), w2, t2) =>
                  let responderAct3 := sub.act2Next responderAct2
                  match responderReceiveAct3 ext sub ac1 w2 with
                  | (Except.error e, w3) => (Except.error e, ac1, w3, t2)
                  | (Except.ok act3Message, w3) =>
                      match sub.finalize responderAct3 act3Message with
                      | none =>
                          (Except.error HandshakeError.subprotocolError, ac1, w3, t2)
                      | some _ => (Except.ok (), ac1, w3, t2)

/-- The source's `newAuthenticatedOutboundConnection` (the
`upgrade_outbound` entry point): extract the remote public key from the
expected remote identity, then run the initiator track; on a handshake
error the connection is closed before the error is returned.  Note that in
the source the extraction-failure path returns without closing the
connection; the model mirrors that. -/
def newAuthenticatedOutboundConnection (ext : Externals) (sub : InitiatorSub)
    (localPeerID remotePeerID : PeerID) (w : Wire) :
    Except HandshakeError authenticatedConnection × List TransportEvent :=
  match ext.extractPublicKey remotePeerID with
  | none => (Except.error HandshakeError.extractKeyError, [])
  | some remotePublicKey =>
      let ac : authenticatedConnection :=
        { localPeerID := localPeerID
          remotePeerID := remotePeerID
          remotePeerPublicKey := some remotePublicKey }
      match runHandshakeAsInitiator ext sub ac w with
      | (Except.error e, _, t) => (Except.error e, t ++ [TransportEvent.close])
      | (Except.ok (), _, t) => (Except.ok ac, t)

/-- The source's `newAuthenticatedInboundConnection` (the
`upgrade_inbound` entry point): the responder side lacks knowledge of the
remote identity (its field starts as the zero value, the empty byte
string); run the responder track; on error the connection is closed before
the error is returned. -/
def newAuthenticatedInboundConnection (ext : Externals) (sub : ResponderSub)
    (localPeerID : PeerID) ( remotePeerID : PeerID) (w : Wire) :
    Except HandshakeError authenticatedConnection × List TransportEvent :=
  let ac : authenticatedConnection :=
    { localPeerID := localPeerID
      remotePeerID := []
      remotePeerPublicKey := none }
  match runHandshakeAsResponder ext sub ac w with
  | (Except.error e, _, _, t) => (Except.error e, t ++ [TransportEvent.close])
  | (Except.ok (), ac', _, t) => (Except.ok ac', t)

/-- Concrete signature adapter for the witnesses: signing prepends a
marker byte and verification accepts exactly the signatures that signing
produces; every identity yields a public key. -/
def sampleExt : Externals :=
  { sign := fun m => some (7 :: m)
    verifyEnvelope := fun _ m s => s == 7 :: m
    extractPublicKey := fun p => some (1 :: p) }

/-- Concrete initiator-side sub-protocol instance for the witnesses. -/
def sampleInitSub : InitiatorSub :=
  { initiate := some 1
    act1Marshal := fun s => some [10, s]
    act1Next := fun s => s + 1
    act2Unmarshal := fun m => some m.length
    act2Next := fun _ a => some (a + 2)
    act3Marshal := fun s => some [30, s] }

/-- Concrete responder-side sub-protocol instance for the witnesses. -/
def sampleRespSub : ResponderSub :=
  { act1Unmarshal := fun m => some m.length
    answerHandshake := fun a => some (a + 1)
    act2Marshal := fun s => some [20, s]
    act2Next := fun s => s + 1
    act3Unmarshal := fun m => some m.length
    finalize := fun _ _ => some () }

/-- Concrete connection states for the witnesses: the responder's starting
state (empty pinned identity, as built by the inbound constructor) and an
initiator state expecting remote identity `[2]`. -/
def sampleInboundStart : authenticatedConnection :=
  { localPeerID := [2], remotePeerID := [], remotePeerPublicKey := none }

/-- Concrete initiator connection state for the witnesses. -/
def sampleOutboundStart : authenticatedConnection :=
  { localPeerID := [1], remotePeerID := [2], remotePeerPublicKey := some [1, 2] }

/-- Every `writeMsg` call, whether it succeeds or fails, records exactly
the one envelope it was asked to transmit. -/
theorem writeMsg_events (env : HandshakeEnvelope) (w : Wire) :
    (writeMsg env w).2.2 = [TransportEvent.write env] := by
  unfold writeMsg
  cases h : w.writeOks with
  | nil => rfl
  | cons ok rest => cases ok <;> simp

/-- C3: the VERIFY procedure succeeds iff the pinned identity byte-equals
the envelope sender and signature verification of the message under the
sender identity succeeds; when the identities differ it returns the
distinct identity-mismatch error, and the outcome is independent of the
signature-verification function (it is not invoked). -/
theorem C3_verify_iff (ext : Externals) (pinned sender : PeerID)
    (m s : Bytes) :
    (verify ext pinned sender m s = Except.ok () ↔
      pinned = sender ∧ ext.verifyEnvelope sender m s = true) ∧
    (pinned ≠ sender →
      verify ext pinned sender m s =
          Except.error HandshakeError.identityMismatch ∧
      ∀ f : PeerID → Bytes → Bytes → Bool,
        verify { ext with verifyEnvelope := f } pinned sender m s =
          Except.error HandshakeError.identityMismatch) := by
  constructor
  · by_cases h : pinned = sender
    · subst h
      by_cases hv : ext.verifyEnvelope pinned m s = true <;> simp [verify, hv]
    · simp [verify, h]
  · intro h
    exact ⟨by simp [verify, h], fun f => by simp [verify, h]⟩

/-- Witness for C3 at a concrete mismatching input. -/
theorem C3_verify_iff_witness :
    verify sampleExt [1] [2] [5] [9] =
      Except.error HandshakeError.identityMismatch :=
  ((C3_verify_iff sampleExt [1] [2] [5] [9]).2 (by decide)).1

/-- C2: on the responder side the just-adopted peer id is compared against
itself, so Act 1 reception can never fail with the identity-mismatch
error; whatever peer id the Act 1 envelope carries (the empty one
included) is adopted as the pinned identity whenever the read succeeds,
and the only possible failures are I/O, frame oversize, signature
verification and unmarshalling. -/
theorem C2_responder_act1_self_check (ext : Externals) (sub : ResponderSub)
    (ac : authenticatedConnection) (w : Wire) :
    (responderReceiveAct1 ext sub ac w).1 ≠
        Except.error HandshakeError.identityMismatch ∧
    (∀ env : HandshakeEnvelope, (readMsg w).1 = Except.ok env →
        (responderReceiveAct1 ext sub ac w).2.1.remotePeerID = env.PeerID) ∧
    (∀ e, (responderReceiveAct1 ext sub ac w).1 = Except.error e →
        e = HandshakeError.readError ∨ e = HandshakeError.frameOversize ∨
        e = HandshakeError.signatureInvalid ∨
        e = HandshakeError.unmarshalError) := by
  rcases hw : w.incoming with _ | ⟨f, rest⟩
  · refine ⟨by simp [responderReceiveAct1, readMsg, hw], ?_, ?_⟩
    · intro env henv
      simp [readMsg, hw] at henv
    · intro e he
      simp [responderReceiveAct1, readMsg, hw] at he
      simp [← he]
  · cases f with
    | ioError =>
        refine ⟨by simp [responderReceiveAct1, readMsg, hw], ?_, ?_⟩
        · intro env henv
          simp [readMsg, hw] at henv
        · intro e he
          simp [responderReceiveAct1, readMsg, hw] at he
          simp [← he]
    | frame len env =>
        by_cases hlen : len > maxFrameSize
        · refine ⟨by simp [responderReceiveAct1, readMsg, hw, hlen], ?_, ?_⟩
          · intro env' henv
            simp [readMsg, hw, hlen] at henv
          · intro e he
            simp [responderReceiveAct1, readMsg, hw, hlen] at he
            simp [← he]
        · by_cases hv : ext.verifyEnvelope env.PeerID env.Message env.Signature = true
          · rcases hu : sub.act1Unmarshal env.Message with _ | a1
            · refine ⟨by simp [responderReceiveAct1, readMsg, hw, hlen, verify, hv, hu], ?_, ?_⟩
              · intro env' henv
                simp [readMsg, hw, hlen] at henv
                simp [responderReceiveAct1, readMsg, hw, hlen, verify, hv, hu, ← henv]
              · intro e he
                simp [responderReceiveAct1, readMsg, hw, hlen, verify, hv, hu] at he
                simp [← he]
            · refine ⟨by simp [responderReceiveAct1, readMsg, hw, hlen, verify, hv, hu], ?_, ?_⟩
              · intro env' henv
                simp [readMsg, hw, hlen] at henv
                simp [responderReceiveAct1, readMsg, hw, hlen, verify, hv, hu, ← henv]
              · intro e he
                simp [responderReceiveAct1, readMsg, hw, hlen, verify, hv, hu] at he
          · refine ⟨by simp [responderReceiveAct1, readMsg, hw, hlen, verify, hv], ?_, ?_⟩
            · intro env' henv
              simp [readMsg, hw, hlen] at henv
              simp [responderReceiveAct1, readMsg, hw, hlen, verify, hv, ← henv]
            · intro e he
              simp [responderReceiveAct1, readMsg, hw, hlen, verify, hv] at he
              simp [← he]

/-- Witness for C2 at a concrete Act 1 envelope carrying an empty peer id:
the empty identity is adopted as the pinned identity. -/
theorem C2_responder_act1_self_check_witness :
    (responderReceiveAct1 sampleExt sampleRespSub sampleInboundStart
        { incoming := [Frame.frame 10
            { Message := [10, 1], PeerID := [], Signature := [7, 10, 1] }],
          writeOks := [] }).2.1.remotePeerID = [] :=
  (C2_responder_act1_self_check sampleExt sampleRespSub sampleInboundStart
      { incoming := [Frame.frame 10
          { Message := [10, 1], PeerID := [], Signature := [7, 10, 1] }],
        writeOks := [] }).2.1
    { Message := [10, 1], PeerID := [], Signature := [7, 10, 1] } rfl

/-- C9: if Act 1 reception (read plus verification plus unmarshalling)
fails on the responder, the whole responder run emits no transport events
at all — in particular no write ever precedes a successfully validated
Act 1 envelope. -/
theorem C9_responder_silent_before_act1 (ext : Externals)
    (sub : ResponderSub) (ac : authenticatedConnection) (w : Wire)
    (e : HandshakeError)
    (h : (responderReceiveAct1 ext sub ac w).1 = Except.error e) :
    (runHandshakeAsResponder ext sub ac w).2.2.2 = [] := by
  unfold runHandshakeAsResponder
  rcases hr : responderReceiveAct1 ext sub ac w with ⟨r, ac1, w1⟩
  rw [hr] at h
  cases r with
  | error e' => rfl
  | ok a => simp at h

/-- Witness for C9: a responder facing an immediate transport read error
writes nothing. -/
theorem C9_responder_silent_before_act1_witness :
    (runHandshakeAsResponder sampleExt sampleRespSub sampleInboundStart
        { incoming := [], writeOks := [] }).2.2.2 = [] :=
  C9_responder_silent_before_act1 sampleExt sampleRespSub sampleInboundStart
    { incoming := [], writeOks := [] } HandshakeError.readError rfl

/-- C7: every envelope built and transmitted by the three send helpers
carries the sender's own local identity in its peer-id field and, in its
signature field, the signature its local private key produced over the
message bytes. -/
theorem C7_envelopes_carry_local_identity (extI extR : Externals)
    (acI acR : authenticatedConnection) (m1 m2 m3 sg1 sg2 sg3 : Bytes)
    (w1 w2 w3 : Wire)
    (h1 : extI.sign m1 = some sg1) (h2 : extR.sign m2 = some sg2)
    (h3 : extI.sign m3 = some sg3) :
    (initiatorSendAct1 extI acI m1 w1).2.2 =
      [TransportEvent.write
        { Message := m1, PeerID := acI.localPeerID, Signature := sg1 }] ∧
    (responderSendAct2 extR acR m2 w2).2.2 =
      [TransportEvent.write
        { Message := m2, PeerID := acR.localPeerID, Signature := sg2 }] ∧
    (initiatorSendAct3 extI acI m3 w3).2.2 =
      [TransportEvent.write
        { Message := m3, PeerID := acI.localPeerID, Signature := sg3 }] := by
  refine ⟨?_, ?_, ?_⟩
  · simp [initiatorSendAct1, h1, writeMsg_events]
  · simp [responderSendAct2, h2, writeMsg_events]
  · simp [initiatorSendAct3, h3, writeMsg_events]

/-- Witness for C7 at concrete messages signed by the sample adapter. -/
theorem C7_envelopes_carry_local_identity_witness :
    (initiatorSendAct1 sampleExt sampleOutboundStart [5]
        { incoming := [], writeOks := [true] }).2.2 =
      [TransportEvent.write
        { Message := [5], PeerID := [1], Signature := [7, 5] }] :=
  (C7_envelopes_carry_local_identity sampleExt sampleExt
      sampleOutboundStart sampleInboundStart [5] [6] [8]
      [7, 5] [7, 6] [7, 8]
      { incoming := [], writeOks := [true] }
      { incoming := [], writeOks := [true] }
      { incoming := [], writeOks := [true] } rfl rfl rfl).1

/-- Signature adapter whose public-key extraction always fails, exhibiting
the outbound extraction-failure path. -/
def extNoKey : Externals :=
  { sign := fun m => some (7 :: m)
    verifyEnvelope := fun _ _ _ => true
    extractPublicKey := fun _ => none }

/-- C1 demonstration: when extracting the remote public key from the
expected remote identity fails, `newAuthenticatedOutboundConnection`
returns the error without ever closing the underlying transport — the
close event is absent from the trace, contradicting the claim that every
error return closes the transport. -/
theorem C1_outbound_extract_failure_no_close :
    (newAuthenticatedOutboundConnection extNoKey sampleInitSub [1] [2]
        { incoming := [], writeOks := [] }).1 =
      Except.error HandshakeError.extractKeyError ∧
    TransportEvent.close ∉
      (newAuthenticatedOutboundConnection extNoKey sampleInitSub [1] [2]
        { incoming := [], writeOks := [] }).2 := by
  refine ⟨rfl, ?_⟩
  show TransportEvent.close ∉ ([] : List TransportEvent)
  simp

/-- C4: when every Act 1 step succeeds and the Act 2 envelope received by
the initiator carries a peer id different from the expected remote
identity, the outbound upgrade fails with the identity-mismatch error and
the full event trace is the single Act 1 write followed by the transport
close — Act 3 is never transmitted. -/
theorem C4_initiator_identity_mismatch (ext : Externals)
    (sub : InitiatorSub) (localID R pk : PeerID) (s1 : Nat)
    (m1 sg1 : Bytes) (wrest : List Bool) (len : Nat)
    (env : HandshakeEnvelope) (irest : List Frame) (w : Wire)
    (hpk : ext.extractPublicKey R = some pk)
    (hinit : sub.initiate = some s1)
    (hm : sub.act1Marshal s1 = some m1)
    (hsig : ext.sign m1 = some sg1)
    (hoks : w.writeOks = true :: wrest)
    (hin : w.incoming = Frame.frame len env :: irest)
    (hlen : len ≤ maxFrameSize)
    (hne : env.PeerID ≠ R) :
    newAuthenticatedOutboundConnection ext sub localID R w =
      (Except.error HandshakeError.identityMismatch,
        [TransportEvent.write
          { Message := m1, PeerID := localID, Signature := sg1 },
         TransportEvent.close]) := by
  have hlt : ¬ len > maxFrameSize := by omega
  have hR : R ≠ env.PeerID := fun h => hne h.symm
  simp [newAuthenticatedOutboundConnection, runHandshakeAsInitiator,
    initiatorSendAct1, writeMsg, initiatorReceiveAct2, readMsg, verify,
    hpk, hinit, hm, hsig, hoks, hin, hlt, hR]

/-- Witness for C4: the responder answers with peer id `[3]` while the
initiator expects `[2]`. -/
theorem C4_initiator_identity_mismatch_witness :
    newAuthenticatedOutboundConnection sampleExt sampleInitSub [1] [2]
      { incoming := [Frame.frame 10
          { Message := [20, 2], PeerID := [3], Signature := [7, 20, 2] }],
        writeOks := [true] } =
    (Except.error HandshakeError.identityMismatch,
      [TransportEvent.write
        { Message := [10, 1], PeerID := [1], Signature := [7, 10, 1] },
       TransportEvent.close]) :=
  C4_initiator_identity_mismatch sampleExt sampleInitSub [1] [2] [1, 2] 1
    [10, 1] [7, 10, 1] [] 10
    { Message := [20, 2], PeerID := [3], Signature := [7, 20, 2] } []
    { incoming := [Frame.frame 10
        { Message := [20, 2], PeerID := [3], Signature := [7, 20, 2] }],
      writeOks := [true] }
    rfl rfl rfl rfl rfl rfl (by decide) (by decide)

/-- C8: an inbound frame whose total encoded length exceeds the 1024-byte
maximum frame size makes the read fail with the frame-oversize error; the
carried envelope (universally quantified, hence never inspected) is not
processed, the handshake aborts, and the transport is closed.  Stated for
every read site of either role: the responder reading Act 1, the initiator
reading Act 2 after a successful Act 1, and the responder reading Act 3
after a fully successful Act 1 and Act 2. -/
theorem C8_frame_oversize_rejected (ext : Externals) (subI : InitiatorSub)
    (subR : ResponderSub) (lidI RI pk lidR ridR : PeerID) (s1 : Nat)
    (m1 sg1 : Bytes) (wrestI : List Bool) (lenI lenR : Nat)
    (envI envR : HandshakeEnvelope) (irestI irestR : List Frame)
    (wI wR : Wire)
    (lenR1 lenR3 : Nat) (envR1 envR3 : HandshakeEnvelope)
    (irestR3 : List Frame) (wR3 : Wire) (a1 r2 : Nat) (m2 sg2 : Bytes)
    (oksrestR : List Bool)
    (hpk : ext.extractPublicKey RI = some pk)
    (hinit : subI.initiate = some s1)
    (hm : subI.act1Marshal s1 = some m1)
    (hsig : ext.sign m1 = some sg1)
    (hoksI : wI.writeOks = true :: wrestI)
    (hinI : wI.incoming = Frame.frame lenI envI :: irestI)
    (hlenI : lenI > maxFrameSize)
    (hinR : wR.incoming = Frame.frame lenR envR :: irestR)
    (hlenR : lenR > maxFrameSize)
    (hinR3 : wR3.incoming =
      Frame.frame lenR1 envR1 :: Frame.frame lenR3 envR3 :: irestR3)
    (hlenR1 : lenR1 ≤ maxFrameSize)
    (hvR1 : ext.verifyEnvelope envR1.PeerID envR1.Message envR1.Signature
      = true)
    (huR1 : subR.act1Unmarshal envR1.Message = some a1)
    (haR : subR.answerHandshake a1 = some r2)
    (hmR2 : subR.act2Marshal r2 = some m2)
    (hsR2 : ext.sign m2 = some sg2)
    (hoksR : wR3.writeOks = true :: oksrestR)
    (hlenR3 : lenR3 > maxFrameSize) :
    newAuthenticatedOutboundConnection ext subI lidI RI wI =
      (Except.error HandshakeError.frameOversize,
        [TransportEvent.write
          { Message := m1, PeerID := lidI, Signature := sg1 },
         TransportEvent.close]) ∧
    newAuthenticatedInboundConnection ext subR lidR ridR wR =
      (Except.error HandshakeError.frameOversize,
        [TransportEvent.close]) ∧
    newAuthenticatedInboundConnection ext subR lidR ridR wR3 =
      (Except.error HandshakeError.frameOversize,
        [TransportEvent.write
          { Message := m2, PeerID := lidR, Signature := sg2 },
         TransportEvent.close]) := by
  have hlt1 : ¬ lenR1 > maxFrameSize := by omega
  refine ⟨?_, ?_, ?_⟩
  · simp [newAuthenticatedOutboundConnection, runHandshakeAsInitiator,
      initiatorSendAct1, writeMsg, initiatorReceiveAct2, readMsg,
      hpk, hinit, hm, hsig, hoksI, hinI, hlenI]
  · simp [newAuthenticatedInboundConnection, runHandshakeAsResponder,
      responderReceiveAct1, readMsg, hinR, hlenR]
  · simp [newAuthenticatedInboundConnection, runHandshakeAsResponder,
      responderReceiveAct1, responderReceiveAct3, responderSendAct2,
      readMsg, writeMsg, verify, hinR3, hlt1, hvR1, huR1, haR, hmR2,
      hsR2, hoksR, hlenR3]

/-- Witness for C8: a 2000-byte frame is rejected at all three read
sites — the responder's Act 1 read, the initiator's Act 2 read, and the
responder's Act 3 read after a good Act 1 and Act 2. -/
theorem C8_frame_oversize_rejected_witness :
    newAuthenticatedOutboundConnection sampleExt sampleInitSub [1] [2]
      { incoming := [Frame.frame 2000
          { Message := [20, 2], PeerID := [2], Signature := [7, 20, 2] }],
        writeOks := [true] } =
      (Except.error HandshakeError.frameOversize,
        [TransportEvent.write
          { Message := [10, 1], PeerID := [1], Signature := [7, 10, 1] },
         TransportEvent.close]) ∧
    newAuthenticatedInboundConnection sampleExt sampleRespSub [2] []
      { incoming := [Frame.frame 2000
          { Message := [10, 1], PeerID := [1], Signature := [7, 10, 1] }],
        writeOks := [] } =
      (Except.error HandshakeError.frameOversize,
        [TransportEvent.close]) ∧
    newAuthenticatedInboundConnection sampleExt sampleRespSub [2] []
      { incoming := [Frame.frame 10
          { Message := [10, 1], PeerID := [1], Signature := [7, 10, 1] },
        Frame.frame 2000
          { Message := [30, 5], PeerID := [1], Signature := [7, 30, 5] }],
        writeOks := [true] } =
      (Except.error HandshakeError.frameOversize,
        [TransportEvent.write
          { Message := [20, 3], PeerID := [2], Signature := [7, 20, 3] },
         TransportEvent.close]) :=
  C8_frame_oversize_rejected sampleExt sampleInitSub sampleRespSub
    [1] [2] [1, 2] [2] [] 1 [10, 1] [7, 10, 1] [] 2000 2000
    { Message := [20, 2], PeerID := [2], Signature := [7, 20, 2] }
    { Message := [10, 1], PeerID := [1], Signature := [7, 10, 1] } [] []
    { incoming := [Frame.frame 2000
        { Message := [20, 2], PeerID := [2], Signature := [7, 20, 2] }],
      writeOks := [true] }
    { incoming := [Frame.frame 2000
        { Message := [10, 1], PeerID := [1], Signature := [7, 10, 1] }],
      writeOks := [] }
    10 2000
    { Message := [10, 1], PeerID := [1], Signature := [7, 10, 1] }
    { Message := [30, 5], PeerID := [1], Signature := [7, 30, 5] }
    []
    { incoming := [Frame.frame 10
        { Message := [10, 1], PeerID := [1], Signature := [7, 10, 1] },
      Frame.frame 2000
        { Message := [30, 5], PeerID := [1], Signature := [7, 30, 5] }],
      writeOks := [true] }
    2 3 [20, 3] [7, 20, 3] []
    rfl rfl rfl rfl rfl rfl (by decide) rfl (by decide)
    rfl (by decide) rfl rfl rfl rfl rfl rfl (by decide)

/-- The connection state a responder run returns is exactly the state
produced at Act 1 reception: no later step of the responder track touches
the pinned identity. -/
theorem responder_state_set_once (ext : Externals) (sub : ResponderSub)
    (ac : authenticatedConnection) (w : Wire) :
    (runHandshakeAsResponder ext sub ac w).2.1 =
      (responderReceiveAct1 ext sub ac w).2.1 := by
  unfold runHandshakeAsResponder
  rcases h1 : responderReceiveAct1 ext sub ac w with ⟨r, ac1, w1⟩
  rcases r with e | a1
  · rfl
  · rcases h2 : sub.answerHandshake a1 with _ | r2
    · simp [h2]
    · rcases h3 : sub.act2Marshal r2 with _ | m2
      · simp [h2, h3]
      · rcases h4 : responderSendAct2 ext ac1 m2 w1 with ⟨rs, w2, t2⟩
        rcases rs with e | u
        · simp [h2, h3, h4]
        · cases u
          rcases h5 : responderReceiveAct3 ext sub ac1 w2 with ⟨r3, w3⟩
          rcases r3 with e | a3
          · simp [h2, h3, h4, h5]
          · rcases h6 : sub.finalize (sub.act2Next r2) a3 with _ | u2
            · simp [h2, h3, h4, h5, h6]
            · simp [h2, h3, h4, h5, h6]

/-- C5: the pinned remote identity on the responder track is written
exactly once, at Act 1 reception — for every input the state after the
whole run equals the state after Act 1 — and a responder run whose Act 3
envelope carries a peer id different from the one adopted at Act 1 fails
with the identity-mismatch error while still pinning the Act 1
identity. -/
theorem C5_responder_pinning (ext : Externals) (sub : ResponderSub)
    (ac : authenticatedConnection) (w : Wire) (len1 len3 : Nat)
    (env1 env3 : HandshakeEnvelope) (irest : List Frame) (a1 r2 : Nat)
    (m2 sg2 : Bytes) (oksrest : List Bool)
    (hin : w.incoming = Frame.frame len1 env1 :: Frame.frame len3 env3 :: irest)
    (hlen1 : len1 ≤ maxFrameSize)
    (hv1 : ext.verifyEnvelope env1.PeerID env1.Message env1.Signature = true)
    (hu1 : sub.act1Unmarshal env1.Message = some a1)
    (ha : sub.answerHandshake a1 = some r2)
    (hm2 : sub.act2Marshal r2 = some m2)
    (hs2 : ext.sign m2 = some sg2)
    (hoks : w.writeOks = true :: oksrest)
    (hlen3 : len3 ≤ maxFrameSize)
    (hne : env3.PeerID ≠ env1.PeerID) :
    (runHandshakeAsResponder ext sub ac w).1 =
        Except.error HandshakeError.identityMismatch ∧
    (runHandshakeAsResponder ext sub ac w).2.1.remotePeerID = env1.PeerID ∧
    ∀ w' : Wire, (runHandshakeAsResponder ext sub ac w').2.1 =
        (responderReceiveAct1 ext sub ac w').2.1 := by
  have hlt1 : ¬ len1 > maxFrameSize := by omega
  have hlt3 : ¬ len3 > maxFrameSize := by omega
  have hne' : env1.PeerID ≠ env3.PeerID := fun hh => hne hh.symm
  refine ⟨?_, ?_, fun w' => responder_state_set_once ext sub ac w'⟩
  · simp [runHandshakeAsResponder, responderReceiveAct1,
      responderReceiveAct3, responderSendAct2, readMsg, writeMsg, verify,
      hin, hlt1, hv1, hu1, ha, hm2, hs2, hoks, hlt3, hne']
  · simp [runHandshakeAsResponder, responderReceiveAct1,
      responderReceiveAct3, responderSendAct2, readMsg, writeMsg, verify,
      hin, hlt1, hv1, hu1, ha, hm2, hs2, hoks, hlt3, hne']

/-- Witness for C5: Act 1 carries peer id `[1]`, Act 3 carries `[9]`; the
responder aborts with the identity-mismatch error and keeps `[1]`
pinned. -/
theorem C5_responder_pinning_witness :
    (runHandshakeAsResponder sampleExt sampleRespSub sampleInboundStart
        { incoming := [Frame.frame 10
            { Message := [10, 1], PeerID := [1], Signature := [7, 10, 1] },
          Frame.frame 12
            { Message := [30, 5], PeerID := [9], Signature := [7, 30, 5] }],
          writeOks := [true] }).1 =
      Except.error HandshakeError.identityMismatch :=
  (C5_responder_pinning sampleExt sampleRespSub sampleInboundStart
      { incoming := [Frame.frame 10
          { Message := [10, 1], PeerID := [1], Signature := [7, 10, 1] },
        Frame.frame 12
          { Message := [30, 5], PeerID := [9], Signature := [7, 30, 5] }],
        writeOks := [true] }
      10 12
      { Message := [10, 1], PeerID := [1], Signature := [7, 10, 1] }
      { Message := [30, 5], PeerID := [9], Signature := [7, 30, 5] }
      [] 2 3 [20, 3] [7, 20, 3] []
      rfl (by decide) rfl rfl rfl rfl rfl rfl (by decide) (by decide)).1

theorem initiator_success_writes (ext : Externals) (sub : InitiatorSub)
    (ac : authenticatedConnection) (w : Wire)
    (h : (runHandshakeAsInitiator ext sub ac w).1 = Except.ok ()) :
    ∃ s1 m1 sg1 s3 m3 sg3,
      sub.initiate = some s1 ∧ sub.act1Marshal s1 = some m1 ∧
      ext.sign m1 = some sg1 ∧ sub.act3Marshal s3 = some m3 ∧
      ext.sign m3 = some sg3 ∧
      (runHandshakeAsInitiator ext sub ac w).2.2 =
        [TransportEvent.write
          { Message := m1, PeerID := ac.localPeerID, Signature := sg1 },
         TransportEvent.write
          { Message := m3, PeerID := ac.localPeerID, Signature := sg3 }] := by
  rcases hI : sub.initiate with _ | s1
  · simp [runHandshakeAsInitiator, hI] at h
  · rcases hM : sub.act1Marshal s1 with _ | m1
    · simp [runHandshakeAsInitiator, hI, hM] at h
    · rcases hS : ext.sign m1 with _ | sg1
      · simp [runHandshakeAsInitiator, initiatorSendAct1, hI, hM, hS] at h
      · rcases hoks : w.writeOks with _ | ⟨ok, wrest⟩
        · simp [runHandshakeAsInitiator, initiatorSendAct1, writeMsg,
            hI, hM, hS, hoks] at h
        · cases ok
          · simp [runHandshakeAsInitiator, initiatorSendAct1, writeMsg,
              hI, hM, hS, hoks] at h
          · rcases hr : initiatorReceiveAct2 ext sub ac
                { incoming := w.incoming, writeOks := wrest } with ⟨r2, w2⟩
            rcases r2 with e | a2
            · simp [runHandshakeAsInitiator, initiatorSendAct1, writeMsg,
                hI, hM, hS, hoks, hr] at h
            · rcases hN : sub.act2Next (sub.act1Next s1) a2 with _ | s3
              · simp [runHandshakeAsInitiator, initiatorSendAct1, writeMsg,
                  hI, hM, hS, hoks, hr, hN] at h
              · rcases hM3 : sub.act3Marshal s3 with _ | m3
                · simp [runHandshakeAsInitiator, initiatorSendAct1, writeMsg,
                    hI, hM, hS, hoks, hr, hN, hM3] at h
                · rcases hS3 : ext.sign m3 with _ | sg3
                  · simp [runHandshakeAsInitiator, initiatorSendAct1,
                      initiatorSendAct3, writeMsg, hI, hM, hS, hoks, hr,
                      hN, hM3, hS3] at h
                  · rcases hoks2 : w2.writeOks with _ | ⟨ok2, wrest2⟩
                    · simp [runHandshakeAsInitiator, initiatorSendAct1,
                        initiatorSendAct3, writeMsg, hI, hM, hS, hoks, hr,
                        hN, hM3, hS3, hoks2] at h
                    · cases ok2
                      · simp [runHandshakeAsInitiator, initiatorSendAct1,
                          initiatorSendAct3, writeMsg, hI, hM, hS, hoks,
                          hr, hN, hM3, hS3, hoks2] at h
                      · refine ⟨s1, m1, sg1, s3, m3, sg3, rfl, hM, hS,
                          hM3, hS3, ?_⟩
                        simp [runHandshakeAsInitiator, initiatorSendAct1,
                          initiatorSendAct3, writeMsg, hI, hM, hS, hoks,
                          hr, hN, hM3, hS3, hoks2]

theorem responderReceiveAct1_local (ext : Externals) (sub : ResponderSub)
    (ac : authenticatedConnection) (w : Wire) :
    (responderReceiveAct1 ext sub ac w).2.1.localPeerID = ac.localPeerID := by
  unfold responderReceiveAct1
  rcases hr : readMsg w with ⟨r, w'⟩
  rcases r with e | env
  · rfl
  · by_cases hv : ext.verifyEnvelope env.PeerID env.Message env.Signature = true
    · rcases hu : sub.act1Unmarshal env.Message with _ | a1 <;>
        simp [verify, hv, hu]
    · simp [verify, hv]

theorem responder_success_writes (ext : Externals) (sub : ResponderSub)
    (ac : authenticatedConnection) (w : Wire)
    (h : (runHandshakeAsResponder ext sub ac w).1 = Except.ok ()) :
    ∃ a1 r2 m2 sg2,
      sub.answerHandshake a1 = some r2 ∧ sub.act2Marshal r2 = some m2 ∧
      ext.sign m2 = some sg2 ∧
      (runHandshakeAsResponder ext sub ac w).2.2.2 =
        [TransportEvent.write
          { Message := m2, PeerID := ac.localPeerID, Signature := sg2 }] := by
  have hloc := responderReceiveAct1_local ext sub ac w
  rcases hr1 : responderReceiveAct1 ext sub ac w with ⟨r1, ac1, w1⟩
  rw [hr1] at hloc
  simp only at hloc
  rcases r1 with e | a1
  · simp [runHandshakeAsResponder, hr1] at h
  · rcases h2 : sub.answerHandshake a1 with _ | r2
    · simp [runHandshakeAsResponder, hr1, h2] at h
    · rcases h3 : sub.act2Marshal r2 with _ | m2
      · simp [runHandshakeAsResponder, hr1, h2, h3] at h
      · rcases hs2 : ext.sign m2 with _ | sg2
        · simp [runHandshakeAsResponder, responderSendAct2, hr1, h2, h3,
            hs2] at h
        · rcases hoks : w1.writeOks with _ | ⟨ok, wrest⟩
          · simp [runHandshakeAsResponder, responderSendAct2, writeMsg,
              hr1, h2, h3, hs2, hoks] at h
          · cases ok
            · simp [runHandshakeAsResponder, responderSendAct2, writeMsg,
                hr1, h2, h3, hs2, hoks] at h
            · rcases h5 : responderReceiveAct3 ext sub ac1
                  { incoming := w1.incoming, writeOks := wrest } with ⟨r3, w3⟩
              rcases r3 with e | a3
              · simp [runHandshakeAsResponder, responderSendAct2, writeMsg,
                  hr1, h2, h3, hs2, hoks, h5] at h
              · rcases h6 : sub.finalize (sub.act2Next r2) a3 with _ | u
                · simp [runHandshakeAsResponder, responderSendAct2,
                    writeMsg, hr1, h2, h3, hs2, hoks, h5, h6] at h
                · refine ⟨a1, r2, m2, sg2, h2, h3, hs2, ?_⟩
                  simp [runHandshakeAsResponder, responderSendAct2,
                    writeMsg, hr1, h2, h3, hs2, hoks, h5, h6, hloc]

/-- C6: in every successful run the initiator writes exactly two
envelopes — first the marshalled Act 1 payload, then the marshalled Act 3
payload — and the responder writes exactly one, the marshalled Act 2
payload; the traces show each envelope transmitted exactly once, three
envelopes crossing the wire in total. -/
theorem C6_exactly_three_envelopes (extI extR : Externals)
    (subI : InitiatorSub) (subR : ResponderSub)
    (acI acR : authenticatedConnection) (wI wR : Wire)
    (hI : (runHandshakeAsInitiator extI subI acI wI).1 = Except.ok ())
    (hR : (runHandshakeAsResponder extR subR acR wR).1 = Except.ok ()) :
    (∃ s1 m1 sg1 s3 m3 sg3,
      subI.initiate = some s1 ∧ subI.act1Marshal s1 = some m1 ∧
      extI.sign m1 = some sg1 ∧ subI.act3Marshal s3 = some m3 ∧
      extI.sign m3 = some sg3 ∧
      (runHandshakeAsInitiator extI subI acI wI).2.2 =
        [TransportEvent.write
          { Message := m1, PeerID := acI.localPeerID, Signature := sg1 },
         TransportEvent.write
          { Message := m3, PeerID := acI.localPeerID, Signature := sg3 }]) ∧
    (∃ a1 r2 m2 sg2,
      subR.answerHandshake a1 = some r2 ∧ subR.act2Marshal r2 = some m2 ∧
      extR.sign m2 = some sg2 ∧
      (runHandshakeAsResponder extR subR acR wR).2.2.2 =
        [TransportEvent.write
          { Message := m2, PeerID := acR.localPeerID, Signature := sg2 }]) :=
  ⟨initiator_success_writes extI subI acI wI hI,
   responder_success_writes extR subR acR wR hR⟩

/-- Witness for C6 on a concrete successful round trip of both roles. -/
theorem C6_exactly_three_envelopes_witness :
    (∃ s1 m1 sg1 s3 m3 sg3,
      sampleInitSub.initiate = some s1 ∧
      sampleInitSub.act1Marshal s1 = some m1 ∧
      sampleExt.sign m1 = some sg1 ∧
      sampleInitSub.act3Marshal s3 = some m3 ∧
      sampleExt.sign m3 = some sg3 ∧
      (runHandshakeAsInitiator sampleExt sampleInitSub sampleOutboundStart
          { incoming := [Frame.frame 10
              { Message := [20, 2], PeerID := [2], Signature := [7, 20, 2] }],
            writeOks := [true, true] }).2.2 =
        [TransportEvent.write
          { Message := m1, PeerID := sampleOutboundStart.localPeerID,
            Signature := sg1 },
         TransportEvent.write
          { Message := m3, PeerID := sampleOutboundStart.localPeerID,
            Signature := sg3 }]) ∧
    (∃ a1 r2 m2 sg2,
      sampleRespSub.answerHandshake a1 = some r2 ∧
      sampleRespSub.act2Marshal r2 = some m2 ∧
      sampleExt.sign m2 = some sg2 ∧
      (runHandshakeAsResponder sampleExt sampleRespSub sampleInboundStart
          { incoming := [Frame.frame 10
              { Message := [10, 1], PeerID := [1], Signature := [7, 10, 1] },
            Frame.frame 12
              { Message := [30, 5], PeerID := [1], Signature := [7, 30, 5] }],
            writeOks := [true] }).2.2.2 =
        [TransportEvent.write
          { Message := m2, PeerID := sampleInboundStart.localPeerID,
            Signature := sg2 }]) :=
  C6_exactly_three_envelopes sampleExt sampleExt sampleInitSub sampleRespSub
    sampleOutboundStart sampleInboundStart
    { incoming := [Frame.frame 10
        { Message := [20, 2], PeerID := [2], Signature := [7, 20, 2] }],
      writeOks := [true, true] }
    { incoming := [Frame.frame 10
        { Message := [10, 1], PeerID := [1], Signature := [7, 10, 1] },
      Frame.frame 12
        { Message := [30, 5], PeerID := [1], Signature := [7, 30, 5] }],
      writeOks := [true] }
    rfl rfl

/-- C10: once Act 1 has gone out, any failure of Act 2 reception — read,
verification or unmarshalling — or of the sub-protocol's acceptance of the
Act 2 message (`initiatorAct2.Next`) leaves the initiator trace at exactly
the single Act 1 write and a non-successful result: the Act 3 envelope is
never transmitted before Act 2 has been received, verified and accepted. -/
theorem C10_act3_requires_act2 (ext : Externals) (sub : InitiatorSub)
    (ac : authenticatedConnection) (w w1 : Wire) (s1 : Nat)
    (m1 sg1 : Bytes) (wrest : List Bool)
    (hinit : sub.initiate = some s1)
    (hm : sub.act1Marshal s1 = some m1)
    (hsig : ext.sign m1 = some sg1)
    (hoks : w.writeOks = true :: wrest)
    (hw1 : w1 = { incoming := w.incoming, writeOks := wrest })
    (hfail : (∃ e, (initiatorReceiveAct2 ext sub ac w1).1 = Except.error e) ∨
      (∃ a2, (initiatorReceiveAct2 ext sub ac w1).1 = Except.ok a2 ∧
        sub.act2Next (sub.act1Next s1) a2 = none)) :
    (runHandshakeAsInitiator ext sub ac w).2.2 =
      [TransportEvent.write
        { Message := m1, PeerID := ac.localPeerID, Signature := sg1 }] ∧
    (runHandshakeAsInitiator ext sub ac w).1 ≠ Except.ok () := by
  subst hw1
  rcases hr : initiatorReceiveAct2 ext sub ac
      { incoming := w.incoming, writeOks := wrest } with ⟨r2, w2⟩
  rcases hfail with ⟨e, he⟩ | ⟨a2, ha2, hnone⟩
  · rw [hr] at he
    simp only at he
    subst he
    constructor
    · simp [runHandshakeAsInitiator, initiatorSendAct1, writeMsg,
        hinit, hm, hsig, hoks, hr]
    · simp [runHandshakeAsInitiator, initiatorSendAct1, writeMsg,
        hinit, hm, hsig, hoks, hr]
  · rw [hr] at ha2
    simp only at ha2
    subst ha2
    constructor
    · simp [runHandshakeAsInitiator, initiatorSendAct1, writeMsg,
        hinit, hm, hsig, hoks, hr, hnone]
    · simp [runHandshakeAsInitiator, initiatorSendAct1, writeMsg,
        hinit, hm, hsig, hoks, hr, hnone]

/-- Witness for C10: the transport yields an I/O error at Act 2, and the
initiator's trace stays at the single Act 1 write. -/
theorem C10_act3_requires_act2_witness :
    (runHandshakeAsInitiator sampleExt sampleInitSub sampleOutboundStart
        { incoming := [Frame.ioError], writeOks := [true] }).2.2 =
      [TransportEvent.write
        { Message := [10, 1], PeerID := sampleOutboundStart.localPeerID,
          Signature := [7, 10, 1] }] ∧
    (runHandshakeAsInitiator sampleExt sampleInitSub sampleOutboundStart
        { incoming := [Frame.ioError], writeOks := [true] }).1 ≠
      Except.ok () :=
  C10_act3_requires_act2 sampleExt sampleInitSub sampleOutboundStart
    { incoming := [Frame.ioError], writeOks := [true] }
    { incoming := [Frame.ioError], writeOks := [] }
    1 [10, 1] [7, 10, 1] [] rfl rfl rfl rfl rfl
    (Or.inl ⟨HandshakeError.readError, rfl⟩)
